import Mathlib

/-!
Verification of the clinical-trials intake tool (src/Baylor-trials.py).

The file shallowly embeds the pure core of the program: the response
parser `parse_json_like` (with its two helper regex substitutions and a
model of Python's `json.loads`), the trial filter
`filter_clinical_trials`, the treatment-phase derivation and clinical-text
assembly performed in `main`, PDF text extraction
`extract_text_from_pdf`, credential resolution `get_api_key`, and the
post-response portion of `main` (parse, session-state store, key lookups,
filter invocation) as `run_model_step`.

Modeling conventions, stated once here:
* Python strings are Lean `String`; character classes (`\s`, `\w`,
  `str.strip` whitespace) are modeled over their ASCII members, which
  covers every string the theorems below touch.
* `json.loads` is modeled for the standard JSON grammar (objects, arrays,
  strings with escapes, numbers, `true`/`false`/`null`), with Python's
  dict semantics for duplicate keys (last value wins, first position
  kept).  The Python extensions `NaN`/`Infinity` and surrogate-pair
  `\u` escapes are not modeled and are avoided in all concrete inputs.
  Numbers are kept as their source lexeme.
* Exception messages raised by Python (`json.JSONDecodeError`,
  `KeyError`, `TypeError`) are modeled by fixed descriptive strings; the
  theorems never depend on the wording of those fragments, only on which
  failure branch is taken and on the attempted text that
  `parse_json_like` embeds in its own error.
-/

set_option maxRecDepth 20000

namespace BaylorTrials

/-- Backtick character, written by code point (used by the markdown
code-fence regex of `parse_json_like`). -/
def btick : Char := Char.ofNat 96

/-- Single-quote character, written by code point (used by the quote
normalization of `parse_json_like`). -/
def squote : Char := Char.ofNat 39

/-- ASCII whitespace of Python's regex `\s` and of `str.strip`. -/
def isPySpace (c : Char) : Bool :=
  c = ' ' || c = '\t' || c = '\n' || c = '\r' || c = '\x0b' || c = '\x0c'

/-- `text.strip()` on the character list: drop whitespace from both ends. -/
def pyStripList (l : List Char) : List Char :=
  ((l.dropWhile isPySpace).reverse.dropWhile isPySpace).reverse

/-- Python `text.strip()`. -/
def pyStrip (s : String) : String := String.mk (pyStripList s.data)

/-- The three-backtick fence marker. -/
def fenceMarker : List Char := [btick, btick, btick]

/-- The marker with the `json` language tag, first alternative of the
fence-removal regex. -/
def fenceJson : List Char := fenceMarker ++ ['j', 's', 'o', 'n']

/-- `re.sub(r'```json\s*|\s*```', '', text)`: scan left to right; at each
position try the first alternative (` ```json ` plus following
whitespace), then the second (a whitespace run followed by ` ``` `);
on a match, drop it and resume after it, otherwise emit the character.
Fuel is at least the list length plus one, so it never runs out. -/
def fenceAux : Nat → List Char → List Char
  | 0, l => l
  | _ + 1, [] => []
  | fuel + 1, c :: cs =>
    if fenceJson.isPrefixOf (c :: cs) then
      fenceAux fuel (((c :: cs).drop 7).dropWhile isPySpace)
    else
      let r := (c :: cs).dropWhile isPySpace
      if fenceMarker.isPrefixOf r then fenceAux fuel (r.drop 3)
      else c :: fenceAux fuel cs

/-- The fence-removal substitution of `parse_json_like` (line 115). -/
def fenceSub (s : String) : String := String.mk (fenceAux (s.data.length + 1) s.data)

/-- Python regex `\w`, ASCII members. -/
def isWordChar (c : Char) : Bool := c.isAlphanum || c = '_'

/-- The lookahead `(?=\s*:)`: optional whitespace then a colon. -/
def lookColon (l : List Char) : Bool :=
  match l.dropWhile isPySpace with
  | c :: _ => c = ':'
  | [] => false

/-- `re.sub(r'(\w+)(?=\s*:)', r'"\1"', text)`: a maximal word-character
run followed (after optional whitespace) by a colon is wrapped in double
quotes; the lookahead is not consumed.  A run whose lookahead fails
admits no match at any of its positions, so it is emitted whole. -/
def quoteAux : Nat → List Char → List Char
  | 0, l => l
  | _ + 1, [] => []
  | fuel + 1, c :: cs =>
    if isWordChar c then
      let run := (c :: cs).takeWhile isWordChar
      let rest := (c :: cs).dropWhile isWordChar
      if lookColon rest then '"' :: (run ++ '"' :: quoteAux fuel rest)
      else run ++ quoteAux fuel rest
    else c :: quoteAux fuel cs

/-- The key-quoting substitution of `parse_json_like` (line 125). -/
def quoteKeys (s : String) : String := String.mk (quoteAux (s.data.length + 1) s.data)

/-- `text.replace("'", '"')` (line 128): the pattern is a single
character, so the replacement is a character map. -/
def sglToDbl (s : String) : String :=
  String.mk (s.data.map (fun c => if c = squote then '"' else c))

/-- Decoded JSON value, as produced by the model of `json.loads`. -/
inductive JValue where
  | jnull
  | jbool (b : Bool)
  | jnum (lit : String)
  | jstr (s : String)
  | jarr (xs : List JValue)
  | jobj (kvs : List (String × JValue))
deriving Repr

/-- JSON whitespace accepted by `json.loads` between tokens. -/
def isJsonWs (c : Char) : Bool := c = ' ' || c = '\t' || c = '\n' || c = '\r'

/-- Skip JSON whitespace. -/
def skipWs (l : List Char) : List Char := l.dropWhile isJsonWs

/-- A hexadecimal digit's value. -/
def hexDigitVal (c : Char) : Option Nat :=
  let n := c.toNat
  if 48 ≤ n && n ≤ 57 then some (n - 48)
  else if 97 ≤ n && n ≤ 102 then some (n - 87)
  else if 65 ≤ n && n ≤ 70 then some (n - 55)
  else none

/-- Body of a JSON string after the opening quote: characters up to the
closing quote, with the standard escapes; unescaped control characters
are rejected (Python default `strict=True`). -/
def parseJStrAux : Nat → List Char → List Char → Option (String × List Char)
  | 0, _, _ => none
  | _ + 1, _, [] => none
  | fuel + 1, acc, c :: cs =>
    if c = '"' then some (String.mk acc.reverse, cs)
    else if c = '\\' then
      match cs with
      | [] => none
      | e :: cs2 =>
        if e = '"' then parseJStrAux fuel ('"' :: acc) cs2
        else if e = '\\' then parseJStrAux fuel ('\\' :: acc) cs2
        else if e = '/' then parseJStrAux fuel ('/' :: acc) cs2
        else if e = 'b' then parseJStrAux fuel ('\x08' :: acc) cs2
        else if e = 'f' then parseJStrAux fuel ('\x0c' :: acc) cs2
        else if e = 'n' then parseJStrAux fuel ('\n' :: acc) cs2
        else if e = 'r' then parseJStrAux fuel ('\r' :: acc) cs2
        else if e = 't' then parseJStrAux fuel ('\t' :: acc) cs2
        else if e = 'u' then
          match cs2 with
          | h1 :: h2 :: h3 :: h4 :: cs6 =>
            match hexDigitVal h1, hexDigitVal h2, hexDigitVal h3, hexDigitVal h4 with
            | some a, some b, some c2, some d =>
              parseJStrAux fuel (Char.ofNat (((a * 16 + b) * 16 + c2) * 16 + d) :: acc) cs6
            | _, _, _, _ => none
          | _ => none
        else none
    else if c.toNat < 32 then none
    else parseJStrAux fuel (c :: acc) cs

/-- JSON string body with fuel filled in. -/
def parseJString (l : List Char) : Option (String × List Char) :=
  parseJStrAux (l.length + 1) [] l

/-- Optional fraction part `.digits` of a JSON number; left in place when
absent or malformed (the number then ends before it, as in Python). -/
def takeFrac (l : List Char) : List Char × List Char :=
  match l with
  | c :: r =>
    if c = '.' then
      let ds := r.takeWhile Char.isDigit
      if ds.isEmpty then ([], l) else (c :: ds, r.dropWhile Char.isDigit)
    else ([], l)
  | [] => ([], l)

/-- Optional exponent part of a JSON number. -/
def takeExp (l : List Char) : List Char × List Char :=
  match l with
  | c :: r =>
    if c = 'e' || c = 'E' then
      match r with
      | s :: r2 =>
        if s = '+' || s = '-' then
          let ds := r2.takeWhile Char.isDigit
          if ds.isEmpty then ([], l) else (c :: s :: ds, r2.dropWhile Char.isDigit)
        else
          let ds := r.takeWhile Char.isDigit
          if ds.isEmpty then ([], l) else (c :: ds, r.dropWhile Char.isDigit)
      | [] => ([], l)
    else ([], l)
  | [] => ([], l)

/-- JSON number per the RFC grammar; the matched lexeme is returned. -/
def parseNumber (l : List Char) : Option (String × List Char) :=
  let sl : List Char × List Char :=
    match l with
    | c :: r => if c = '-' then ([c], r) else ([], l)
    | [] => ([], l)
  match sl.2 with
  | c :: _ =>
    if c.isDigit then
      let ip : List Char × List Char :=
        if c = '0' then (['0'], sl.2.tail)
        else (sl.2.takeWhile Char.isDigit, sl.2.dropWhile Char.isDigit)
      let fp := takeFrac ip.2
      let ep := takeExp fp.2
      some (String.mk (sl.1 ++ ip.1 ++ fp.1 ++ ep.1), ep.2)
    else none
  | [] => none

/-- Python dict item assignment `d[k] = v`: replace in place when the key
exists, append otherwise. -/
def pyDictInsert : List (String × JValue) → String → JValue → List (String × JValue)
  | [], k, v => [(k, v)]
  | (k0, v0) :: tl, k, v =>
    if k0 = k then (k0, v) :: tl else (k0, v0) :: pyDictInsert tl k v

/-- Python dict lookup `d[k]` as an option. -/
def pyDictGet : List (String × JValue) → String → Option JValue
  | [], _ => none
  | (k0, v0) :: tl, k => if k0 = k then some v0 else pyDictGet tl k

/-- Collapse duplicate keys with Python dict semantics (last value wins,
first position kept). -/
def dedupKeys (l : List (String × JValue)) : List (String × JValue) :=
  l.foldl (fun d kv => pyDictInsert d kv.1 kv.2) []

/-- Mode of the recursive-descent JSON reader: a value, the members of an
object after its opening brace, or the items of an array. -/
inductive PMode where
  | val
  | members (acc : List (String × JValue))
  | items (acc : List JValue)

/-- Recursive-descent reader behind the `json.loads` model.  The mode
carries the accumulated members/items; callers position the input at the
first significant character. -/
def parseF : Nat → PMode → List Char → Option (JValue × List Char)
  | 0, _, _ => none
  | _ + 1, .val, [] => none
  | fuel + 1, .val, c :: cs =>
    if c = '"' then
      match parseJString cs with
      | some (s, r) => some (.jstr s, r)
      | none => none
    else if c = '\x7b' then
      match skipWs cs with
      | d :: r => if d = '\x7d' then some (.jobj [], r) else parseF fuel (.members []) (d :: r)
      | [] => none
    else if c = '[' then
      match skipWs cs with
      | d :: r => if d = ']' then some (.jarr [], r) else parseF fuel (.items []) (d :: r)
      | [] => none
    else if ['t', 'r', 'u', 'e'].isPrefixOf (c :: cs) then some (.jbool true, (c :: cs).drop 4)
    else if ['f', 'a', 'l', 's', 'e'].isPrefixOf (c :: cs) then some (.jbool false, (c :: cs).drop 5)
    else if ['n', 'u', 'l', 'l'].isPrefixOf (c :: cs) then some (.jnull, (c :: cs).drop 4)
    else
      match parseNumber (c :: cs) with
      | some (s, r) => some (.jnum s, r)
      | none => none
  | fuel + 1, .members acc, l =>
    match l with
    | c :: cs =>
      if c = '"' then
        match parseJString cs with
        | some (k, r1) =>
          match skipWs r1 with
          | d :: r3 =>
            if d = ':' then
              match parseF fuel .val (skipWs r3) with
              | some (v, r5) =>
                match skipWs r5 with
                | e :: r7 =>
                  if e = ',' then parseF fuel (.members (acc ++ [(k, v)])) (skipWs r7)
                  else if e = '\x7d' then some (.jobj (dedupKeys (acc ++ [(k, v)])), r7)
                  else none
                | [] => none
              | none => none
            else none
          | [] => none
        | none => none
      else none
    | [] => none
  | fuel + 1, .items acc, l =>
    match parseF fuel .val l with
    | some (v, r) =>
      match skipWs r with
      | e :: r2 =>
        if e = ',' then parseF fuel (.items (acc ++ [v])) (skipWs r2)
        else if e = ']' then some (.jarr (acc ++ [v]), r2)
        else none
      | [] => none
    | none => none

/-- Model of Python `json.loads`: a single JSON value surrounded only by
whitespace, otherwise failure. -/
def jsonLoads (s : String) : Option JValue :=
  match parseF (4 * s.data.length + 8) .val (skipWs s.data) with
  | some (v, r) => if skipWs r = [] then some v else none
  | none => none

/-- The quote/key repair stage of `parse_json_like` (lines 123–128): quote
bare identifiers before a colon, then turn single quotes into double
quotes. -/
def repairText (t : String) : String := sglToDbl (quoteKeys t)

/-- Fixed prefix of the `ValueError` message raised at line 135; the
`str(e)` fragment is modeled by fixed text (see the header note). -/
def parseFailMsgPre : String :=
  "Failed to parse JSON-like string: Expecting value\nProcessed text: "

/-- `parse_json_like` (lines 110–135): strip, remove fence markers
everywhere, decode; on failure repair quotes/keys and decode again; on
failure raise a `ValueError` whose message embeds the post-repair text. -/
def parse_json_like (text : String) : Except String JValue :=
  match jsonLoads (fenceSub (pyStrip text)) with
  | some v => .ok v
  | none =>
    match jsonLoads (repairText (fenceSub (pyStrip text))) with
    | some v => .ok v
    | none => .error (parseFailMsgPre ++ repairText (fenceSub (pyStrip text)))

/-- A row of the trial registry CSV; the three columns read by
`filter_clinical_trials` plus the trial identifier standing for the
remaining columns. -/
structure TrialRow where
  HR : String
  HER2 : String
  TYPE : String
  NCTId : String
deriving Repr, DecidableEq

/-- Elementwise pandas comparison of a string cell with a Python value:
equality holds only against an equal string; any non-string scalar
compares unequal to every cell. -/
def pyEqCell (cell : String) (v : JValue) : Bool :=
  match v with
  | .jstr s => cell == s
  | _ => false

/-- `filter_clinical_trials` (lines 101–108): boolean-mask selection of
the rows whose HR, HER2 and TYPE cells equal the three arguments. -/
def filter_clinical_trials (df : List TrialRow) (er_status her2_status ty : JValue) :
    List TrialRow :=
  df.filter (fun r => pyEqCell r.HR er_status && pyEqCell r.HER2 her2_status &&
    pyEqCell r.TYPE ty)

/-- What the block at lines 213–244 of `main` displays for one run. -/
inductive Outcome where
  | noResponse
  | parseError (msg : String)
  | matched (rows : List TrialRow)
  | noMatches
deriving Repr, DecidableEq

/-- Session state under the key `result`. -/
abbrev SessionResult := Option (List (String × JValue))

/-- Message of the `KeyError` branch: `st.error(f"Error parsing model
response: ...")` with the missing key. -/
def keyErrMsg (k : String) : String := "Error parsing model response: KeyError " ++ k

/-- Message of the `TypeError` raised when the parsed value is not a dict
and line 218 assigns into it. -/
def typeErrMsg : String := "Error parsing model response: item assignment unsupported"

/-- Lines 213–244 of `main`: on a falsy response report no response;
otherwise parse the content, tag it with the phase, store it in session
state, read the two fields the filter needs plus the tag, filter the
registry, and report matches; every exception of the `try` block lands in
the `parseError` message path.  The registry dataframe is a parameter
(its load is external I/O). -/
def run_model_step (resp : Option String) (ty : String) (df : List TrialRow)
    (st0 : SessionResult) : Outcome × SessionResult :=
  match resp with
  | none => (.noResponse, st0)
  | some content =>
    match parse_json_like content with
    | .error e => (.parseError ("Error parsing model response: " ++ e), st0)
    | .ok v =>
      match v with
      | .jobj d =>
        let d2 := pyDictInsert d "type" (.jstr ty)
        match pyDictGet d2 "HR Status" with
        | none => (.parseError (keyErrMsg "HR Status"), some d2)
        | some hr =>
          match pyDictGet d2 "HER2 Presence" with
          | none => (.parseError (keyErrMsg "HER2 Presence"), some d2)
          | some her2 =>
            match pyDictGet d2 "type" with
            | none => (.parseError (keyErrMsg "type"), some d2)
            | some tyv =>
              let filtered := filter_clinical_trials df hr her2 tyv
              if filtered.isEmpty then (.noMatches, some d2) else (.matched filtered, some d2)
      | _ => (.parseError typeErrMsg, st0)

/-- Python truthiness of an optional string (`None` and the empty string
are falsy). -/
def pyTruthyOpt (o : Option String) : Bool :=
  match o with
  | none => false
  | some s => s ≠ ""

/-- `get_api_key` (lines 138–157): the environment variable first; when
falsy, the secrets store, whose lookup failure (`FileNotFoundError` or
`KeyError`, modeled as `none`) leaves the environment value in place. -/
def get_api_key (env secrets : Option String) : Option String :=
  if pyTruthyOpt env then env
  else
    match secrets with
    | some v => some v
    | none => env

/-- Placeholder substituted for a page with no extractable text
(line 93). -/
def noTextPlaceholder : String := " [No text extracted from this page.]"

/-- `extract_text_from_pdf` (lines 86–94): a file is a list of per-page
extraction results; pages are walked in order and their text
concatenated, a falsy (empty) page contributing the placeholder. -/
def extract_text_from_pdf (pdf_file : Option (List String)) : String :=
  match pdf_file with
  | none => ""
  | some pages => pages.foldl (fun text p => text ++ (if p ≠ "" then p else noTextPlaceholder)) ""

/-- One document slot of the form: the text area value and the uploaded
file (as its pages), as returned by `handle_input`. -/
structure DocInput where
  text : String
  file : Option (List String)
deriving Repr

/-- One `full_text +=` contribution (lines 180–193): nothing when the
questionnaire answer is not `"Yes"`; otherwise the pasted text when
truthy, else the PDF extraction of the uploaded file. -/
def slot_text (has : String) (inp : DocInput) : String :=
  if has = "Yes" then
    if inp.text ≠ "" then inp.text else extract_text_from_pdf inp.file
  else ""

/-- Lines 179–203 of `main`: assemble `full_text` from the three report
slots, then the metastasis branch appends one fixed sentence and fixes
the phase: metastasis `"Yes"` gives `Metastatic`, else a surgical report
gives `Adjuvant`, else `Neoadjuvant`. -/
def assemble_and_phase (has_imaging has_biopsy has_surgical metastasis : String)
    (imaging biopsy surgical : DocInput) : String × String :=
  let ft := "" ++ slot_text has_imaging imaging ++ slot_text has_biopsy biopsy ++
    slot_text has_surgical surgical
  if metastasis = "Yes" then (ft ++ " Metastasis is present.", "Metastatic")
  else if has_surgical = "Yes" then (ft ++ " Metastasis is not present.", "Adjuvant")
  else (ft ++ " Metastasis is not present.", "Neoadjuvant")

/-- How far one pass of `main` gets. -/
inductive MainOutcome where
  | credMissing
  | askData
  | clientInitFailed
  | idle
  | ran (o : Outcome)
deriving Repr, DecidableEq

/-- `main` (lines 159–253) around one submission: the credential gate
returns before anything else when the resolved key is falsy; otherwise
the text is assembled and, when its stripped form is truthy, the prompt
exists and the button triggers client construction (`clientOk` models
`initialize_chat_client` succeeding) and the response step; a falsy
stripped text reaches the ask-for-data branch.  The remote reply, the
registry and the prior session state are parameters. -/
def main_model (env secrets : Option String)
    (has_imaging has_biopsy has_surgical metastasis : String)
    (imaging biopsy surgical : DocInput)
    (pressed clientOk : Bool) (resp : Option String) (df : List TrialRow)
    (st0 : SessionResult) : MainOutcome × SessionResult :=
  if pyTruthyOpt (get_api_key env secrets) = false then (.credMissing, st0)
  else if pyStrip (assemble_and_phase has_imaging has_biopsy has_surgical metastasis
      imaging biopsy surgical).1 ≠ "" then
    if pressed then
      if clientOk = false then (.clientInitFailed, st0)
      else
        ((.ran (run_model_step resp (assemble_and_phase has_imaging has_biopsy
            has_surgical metastasis imaging biopsy surgical).2 df st0).1),
          (run_model_step resp (assemble_and_phase has_imaging has_biopsy
            has_surgical metastasis imaging biopsy surgical).2 df st0).2)
    else (.idle, st0)
  else (.askData, st0)

/-- Encoding of a radio-button answer from a boolean fact. -/
def ynStr (b : Bool) : String := if b then "Yes" else "No"

/-- Per-page contribution of `extract_text_from_pdf`. -/
def pageSubst (p : String) : String := if p ≠ "" then p else noTextPlaceholder

/-- The string field of a parsed object under a key, when both exist. -/
def jGetStr (v : JValue) (k : String) : Option String :=
  match v with
  | .jobj d =>
    match pyDictGet d k with
    | some (.jstr s) => some s
    | _ => none
  | _ => none

/-- A model reply that is valid JSON whose sole value contains a fence
marker inside a string literal. -/
def fencedValueText : String := "\x7b\"a\": \"x ``` y\"\x7d"

/-- A well-formed model reply with no fence marker anywhere. -/
def plainJsonText : String := " \x7b\"a\": \"b\"\x7d "

/-- A reply carrying only the two keys the filter reads. -/
def twoKeyContent : String :=
  "\x7b\"HR Status\": \"POSITIVE\", \"HER2 Presence\": \"NEGATIVE\"\x7d"

/-- A registry row matching the common end-to-end scenario. -/
def rowPosPosAdj : TrialRow :=
  { HR := "POSITIVE", HER2 := "POSITIVE", TYPE := "Adjuvant", NCTId := "NCT00000001" }

/-- An empty document slot. -/
def emptyDoc : DocInput := { text := "", file := none }

/-! ## Helper lemmas -/

theorem mem_dropWhile_of_mem {α : Type} {p : α → Bool} {c : α} {l : List α}
    (h : c ∈ l) (hc : p c = false) : c ∈ l.dropWhile p := by
  induction l with
  | nil => cases h
  | cons a tl ih =>
    rw [List.dropWhile_cons]
    split
    next ha =>
      rcases List.mem_cons.mp h with rfl | htl
      · rw [hc] at ha; cases ha
      · exact ih htl
    next => exact h

theorem mem_pyStripList {c : Char} {l : List Char} (h : c ∈ l)
    (hc : isPySpace c = false) : c ∈ pyStripList l := by
  unfold pyStripList
  rw [List.mem_reverse]
  exact mem_dropWhile_of_mem (List.mem_reverse.mpr (mem_dropWhile_of_mem h hc)) hc

theorem pyStrip_ne_empty {s : String} {c : Char} (h : c ∈ s.data)
    (hc : isPySpace c = false) : pyStrip s ≠ "" := by
  intro he
  have hd : pyStripList s.data = ([] : List Char) := congrArg String.data he
  have hm := mem_pyStripList h hc
  rw [hd] at hm
  cases hm

theorem foldl_append_str (l : List String) (s : String) :
    l.foldl (fun r t => r ++ t) s = s ++ l.foldl (fun r t => r ++ t) "" := by
  induction l generalizing s with
  | nil => simp [String.append_empty]
  | cons x xs ih =>
    simp only [List.foldl_cons]
    rw [ih (s ++ x), ih ("" ++ x), String.empty_append, String.append_assoc]

theorem join_append_str (a b : List String) :
    String.join (a ++ b) = String.join a ++ String.join b := by
  simp only [String.join, List.foldl_append]
  exact foldl_append_str b _

theorem join_cons_str (x : String) (l : List String) :
    String.join (x :: l) = x ++ String.join l := by
  simp only [String.join, List.foldl_cons]
  rw [foldl_append_str, String.empty_append]

theorem extract_eq_join (pages : List String) :
    extract_text_from_pdf (some pages) = String.join (pages.map pageSubst) := by
  simp [extract_text_from_pdf, String.join, List.foldl_map, pageSubst]

theorem assemble_snd (hi hb hs hm : String) (i b sg : DocInput) :
    (assemble_and_phase hi hb hs hm i b sg).2 =
      if hm = "Yes" then "Metastatic"
      else if hs = "Yes" then "Adjuvant" else "Neoadjuvant" := by
  unfold assemble_and_phase
  by_cases h1 : hm = "Yes" <;> by_cases h2 : hs = "Yes" <;> simp [h1, h2]

/-! ## Claim theorems -/

/-- C2: for every trial table and extraction values, the trial matcher
returns exactly the rows whose HR cell equals the receptor value, whose
HER2 cell equals the HER2 value and whose TYPE cell equals the derived
phase, under exact case-sensitive string equality; and when no row
satisfies all three predicates it returns the empty list (a value, not an
error). -/
theorem filter_trials_exact (df : List TrialRow) (e h2 ty : String) :
    (∀ r, r ∈ filter_clinical_trials df (.jstr e) (.jstr h2) (.jstr ty) ↔
      r ∈ df ∧ r.HR = e ∧ r.HER2 = h2 ∧ r.TYPE = ty) ∧
    ((∀ r ∈ df, ¬ (r.HR = e ∧ r.HER2 = h2 ∧ r.TYPE = ty)) →
      filter_clinical_trials df (.jstr e) (.jstr h2) (.jstr ty) = []) := by
  constructor
  · intro r
    rw [filter_clinical_trials, List.mem_filter]
    simp [pyEqCell, and_assoc]
  · intro h
    rw [filter_clinical_trials, List.filter_eq_nil_iff]
    intro r hr
    have := h r hr
    simp [pyEqCell]
    tauto

/-- Witness for C2 at a concrete registry: the matching row is returned
and a mismatched receptor value yields the empty list. -/
theorem filter_trials_exact_witness :
    rowPosPosAdj ∈ filter_clinical_trials [rowPosPosAdj]
      (.jstr "POSITIVE") (.jstr "POSITIVE") (.jstr "Adjuvant") ∧
    filter_clinical_trials [rowPosPosAdj]
      (.jstr "NEGATIVE") (.jstr "POSITIVE") (.jstr "Adjuvant") = [] :=
  ⟨((filter_trials_exact [rowPosPosAdj] "POSITIVE" "POSITIVE" "Adjuvant").1
      rowPosPosAdj).mpr (by decide),
   (filter_trials_exact [rowPosPosAdj] "NEGATIVE" "POSITIVE" "Adjuvant").2 (by decide)⟩

/-- C3: treatment-phase derivation is a total deterministic function of
the two booleans: metastasis yields `Metastatic` regardless of the
surgical flag, otherwise a surgical report yields `Adjuvant`, otherwise
`Neoadjuvant`; and for arbitrary questionnaire strings exactly one of the
three phases is produced. -/
theorem phase_derivation_total :
    (∀ (hi hb : String) (i b sg : DocInput) (hs hm : Bool),
      (assemble_and_phase hi hb (ynStr hs) (ynStr hm) i b sg).2 =
        if hm then "Metastatic" else if hs then "Adjuvant" else "Neoadjuvant") ∧
    (∀ (hi hb hs hm : String) (i b sg : DocInput),
      (assemble_and_phase hi hb hs hm i b sg).2 ∈
        (["Metastatic", "Adjuvant", "Neoadjuvant"] : List String)) := by
  constructor
  · intro hi hb i b sg hs hm
    rw [assemble_snd]
    cases hs <;> cases hm <;> simp [ynStr]
  · intro hi hb hs hm i b sg
    rw [assemble_snd]
    by_cases h1 : hm = "Yes" <;> by_cases h2 : hs = "Yes" <;> simp [h1, h2]

/-- C7: the credential is resolved from the environment first — when the
environment value is truthy the secrets store cannot change the result —
and when neither source yields a truthy value, `main` stops at the
credential-missing message with the session state untouched: no text is
assembled, no prompt exists and no remote call is modeled as having
happened. -/
theorem credential_gate (env secrets : Option String) :
    (pyTruthyOpt env = true → get_api_key env secrets = env) ∧
    (pyTruthyOpt env = false → pyTruthyOpt secrets = false →
      ∀ (hi hb hs hm : String) (i b sg : DocInput) (pressed clientOk : Bool)
        (resp : Option String) (df : List TrialRow) (st0 : SessionResult),
        main_model env secrets hi hb hs hm i b sg pressed clientOk resp df st0 =
          (.credMissing, st0)) := by
  constructor
  · intro h
    simp [get_api_key, h]
  · intro h1 h2 hi hb hs hm i b sg pressed clientOk resp df st0
    have hk : pyTruthyOpt (get_api_key env secrets) = false := by
      unfold get_api_key
      rw [h1]
      simp only [Bool.false_eq_true, if_false]
      cases secrets with
      | none => exact h1
      | some v => exact h2
    simp [main_model, hk]

/-- Witness for C7: a truthy environment key wins, and with both sources
empty the run stops at the credential-missing outcome. -/
theorem credential_gate_witness :
    get_api_key (some "sk-test") none = some "sk-test" ∧
    main_model none none "No" "No" "No" "No" emptyDoc emptyDoc emptyDoc
      false false none [] none = (.credMissing, none) :=
  ⟨(credential_gate (some "sk-test") none).1 rfl,
   (credential_gate none none).2 rfl rfl "No" "No" "No" "No"
     emptyDoc emptyDoc emptyDoc false false none [] none⟩

/-- C8: PDF ingestion walks the pages in order and concatenates each
page's text, substituting the fixed placeholder for a page with no
extractable text, at that page's position; every page, empty or not,
contributes a non-empty segment, so the output is never shortened by
empty pages. -/
theorem pdf_placeholder_position :
    (∀ pages, extract_text_from_pdf (some pages) = String.join (pages.map pageSubst)) ∧
    (∀ p, pageSubst p ≠ "") ∧
    (∀ pre post, extract_text_from_pdf (some (pre ++ "" :: post)) =
      extract_text_from_pdf (some pre) ++ noTextPlaceholder ++
        extract_text_from_pdf (some post)) := by
  refine ⟨extract_eq_join, ?_, ?_⟩
  · intro p
    unfold pageSubst
    split
    next h => exact h
    next => simp [noTextPlaceholder]
  · intro pre post
    rw [extract_eq_join, extract_eq_join, extract_eq_join, List.map_append,
      List.map_cons, join_append_str, join_cons_str]
    have hp : pageSubst "" = noTextPlaceholder := rfl
    rw [hp, String.append_assoc]

theorem fenceAux_of_not_mem :
    ∀ (fuel : Nat) (l : List Char), l.length ≤ fuel → btick ∉ l → fenceAux fuel l = l := by
  have hpre : ∀ m : List Char, fenceMarker.isPrefixOf m = true → btick ∈ m := by
    intro m hm
    exact (List.isPrefixOf_iff_prefix.mp hm).subset (by simp [fenceMarker])
  have hpreJ : ∀ m : List Char, fenceJson.isPrefixOf m = true → btick ∈ m := by
    intro m hm
    exact (List.isPrefixOf_iff_prefix.mp hm).subset (by simp [fenceJson, fenceMarker])
  intro fuel
  induction fuel with
  | zero => intro l _ _; rfl
  | succ n ih =>
    intro l hlen hmem
    match l with
    | [] => rfl
    | c :: cs =>
      cases hj : fenceJson.isPrefixOf (c :: cs) with
      | true => exact absurd (hpreJ _ hj) hmem
      | false =>
        cases hf : fenceMarker.isPrefixOf ((c :: cs).dropWhile isPySpace) with
        | true =>
          exact absurd ((List.dropWhile_sublist _).subset (hpre _ hf)) hmem
        | false =>
          have hcs : cs.length ≤ n := by
            simpa [Nat.succ_le_succ_iff] using hlen
          have hmemcs : btick ∉ cs := fun h => hmem (List.mem_cons_of_mem _ h)
          simp only [fenceAux, hj, hf, Bool.false_eq_true, if_false]
          rw [ih cs hcs hmemcs]

theorem fenceSub_id {s : String} (h : btick ∉ s.data) : fenceSub s = s := by
  unfold fenceSub
  rw [fenceAux_of_not_mem _ _ (Nat.le_succ _) h]

/-- C1 (amended): the parser trims the text, unconditionally removes
markdown fence markers everywhere, and then applies two decode attempts
in order, stopping at the first success — strict decode, then quote/key
repair and a final decode.  For any input whose trimmed text contains no
backtick and strict-decodes, the result equals that strict decode. -/
theorem parse_fence_free_strict (text : String) (v : JValue)
    (hb : btick ∉ (pyStrip text).data)
    (h : jsonLoads (pyStrip text) = some v) :
    parse_json_like text = .ok v := by
  unfold parse_json_like
  rw [fenceSub_id hb, h]

/-- Witness for the amended C1 at a fence-free input. -/
theorem parse_fence_free_strict_witness :
    btick ∉ (pyStrip plainJsonText).data ∧
    parse_json_like plainJsonText = .ok (.jobj [("a", .jstr "b")]) :=
  ⟨by decide, parse_fence_free_strict plainJsonText _ (by decide) rfl⟩

/-- Counterexample to C1 as stated: for an input whose trimmed text
already strict-decodes (its sole field reads `x ``` y`), the parser does
not return that strict decode — the fence removal runs before the first
decode attempt and rewrites the string field to `x y`. -/
theorem parse_strict_decode_changed :
    (jsonLoads (pyStrip fencedValueText)).bind (fun v => jGetStr v "a") =
      some "x ``` y" ∧
    (parse_json_like fencedValueText).toOption.bind (fun v => jGetStr v "a") =
      some "x y" ∧
    ("x ``` y" : String) ≠ "x y" :=
  ⟨rfl, rfl, by decide⟩

/-- C5: when both decode attempts fail, `parse_json_like` returns an
error — never a partial record, the `Except` result carries no other
success channel — and the error message contains the post-repair text as
a suffix, so the caller can surface the attempted text. -/
theorem parse_failure_surfaces_text (text : String)
    (h1 : jsonLoads (fenceSub (pyStrip text)) = none)
    (h2 : jsonLoads (repairText (fenceSub (pyStrip text))) = none) :
    parse_json_like text =
      .error (parseFailMsgPre ++ repairText (fenceSub (pyStrip text))) ∧
    (repairText (fenceSub (pyStrip text))).data <:+
      (parseFailMsgPre ++ repairText (fenceSub (pyStrip text))).data := by
  constructor
  · unfold parse_json_like
    rw [h1, h2]
  · rw [String.data_append]
    exact List.suffix_append _ _

/-- Witness for C5 at an undecodable input. -/
theorem parse_failure_surfaces_text_witness :
    jsonLoads (fenceSub (pyStrip "not json")) = none ∧
    (parse_json_like "not json" =
      .error (parseFailMsgPre ++ repairText (fenceSub (pyStrip "not json"))) ∧
    (repairText (fenceSub (pyStrip "not json"))).data <:+
      (parseFailMsgPre ++ repairText (fenceSub (pyStrip "not json"))).data) :=
  ⟨rfl, parse_failure_surfaces_text "not json" rfl rfl⟩

/-- C6 (amended): a falsy (`None`) reply short-circuits to the distinct
no-response outcome before any parsing; an empty-string reply content,
however, is passed to the parser and reported as a parse failure. -/
theorem empty_reply_paths (ty : String) (df : List TrialRow) (st0 : SessionResult) :
    run_model_step none ty df st0 = (.noResponse, st0) ∧
    (run_model_step (some "") ty df st0).1 =
      .parseError ("Error parsing model response: " ++ parseFailMsgPre) :=
  ⟨rfl, rfl⟩

/-- Counterexample to C6 as stated: an empty model reply is not reported
as the no-response condition — it reaches the parser and is reported as a
parse failure. -/
theorem empty_reply_not_no_response :
    (run_model_step (some "") "Adjuvant" [] none).1 ≠ .noResponse ∧
    (run_model_step (some "") "Adjuvant" [] none).1 =
      .parseError ("Error parsing model response: " ++ parseFailMsgPre) :=
  ⟨by decide, rfl⟩

/-- C9: on every run whose reply parses to a dictionary, the stored
session result is overwritten with that dictionary plus the phase tag,
regardless of whether the subsequent key lookups or the match succeed. -/
theorem session_state_overwritten (content : String) (d : List (String × JValue))
    (ty : String) (df : List TrialRow) (st0 : SessionResult)
    (h : parse_json_like content = .ok (.jobj d)) :
    (run_model_step (some content) ty df st0).2 =
      some (pyDictInsert d "type" (.jstr ty)) := by
  simp only [run_model_step, h]
  cases hg : pyDictGet (pyDictInsert d "type" (.jstr ty)) "HR Status" with
  | none => simp [hg]
  | some hr =>
    cases hg2 : pyDictGet (pyDictInsert d "type" (.jstr ty)) "HER2 Presence" with
    | none => simp [hg, hg2]
    | some her2 =>
      cases hg3 : pyDictGet (pyDictInsert d "type" (.jstr ty)) "type" with
      | none => simp [hg, hg2, hg3]
      | some tyv =>
        simp only [hg, hg2, hg3]
        split <;> rfl

/-- Witness for C9: the empty object is parsed, and the stored state is
the tagged dictionary even though the matching then fails on the missing
receptor key. -/
theorem session_state_overwritten_witness :
    (run_model_step (some "\x7b\x7d") "Adjuvant" [] none).2 =
      some (pyDictInsert [] "type" (.jstr "Adjuvant")) :=
  session_state_overwritten "\x7b\x7d" [] "Adjuvant" [] none rfl

/-- C4 (amended): the matcher is not invoked when a key it reads
(`HR Status` or `HER2 Presence`) is missing from the tagged parse result:
the run ends in the same error path as a parse failure. -/
theorem matcher_guarded_on_read_keys (content : String) (d : List (String × JValue))
    (ty : String) (df : List TrialRow) (st0 : SessionResult)
    (h : parse_json_like content = .ok (.jobj d))
    (hm : pyDictGet (pyDictInsert d "type" (.jstr ty)) "HR Status" = none ∨
      pyDictGet (pyDictInsert d "type" (.jstr ty)) "HER2 Presence" = none) :
    (run_model_step (some content) ty df st0).1 = .parseError (keyErrMsg "HR Status") ∨
    (run_model_step (some content) ty df st0).1 = .parseError (keyErrMsg "HER2 Presence") := by
  simp only [run_model_step, h]
  cases hg : pyDictGet (pyDictInsert d "type" (.jstr ty)) "HR Status" with
  | none => simp [hg]
  | some hr =>
    rcases hm with hm | hm
    · rw [hg] at hm; cases hm
    · simp [hg, hm]

/-- Witness for the amended C4: parsing an empty object succeeds and the
run stops at the missing-key error. -/
theorem matcher_guarded_on_read_keys_witness :
    parse_json_like "\x7b\x7d" = .ok (.jobj []) ∧
    ((run_model_step (some "\x7b\x7d") "Neoadjuvant" [] none).1 =
        .parseError (keyErrMsg "HR Status") ∨
      (run_model_step (some "\x7b\x7d") "Neoadjuvant" [] none).1 =
        .parseError (keyErrMsg "HER2 Presence")) :=
  ⟨rfl, matcher_guarded_on_read_keys "\x7b\x7d" [] "Neoadjuvant" [] none rfl (Or.inl rfl)⟩

/-- Counterexample to C4 as stated: a parse can succeed with none of the
five expected keys, and the matcher is invoked on a result missing three
of them — a two-key reply reaches the filter and produces the no-matches
outcome rather than an error. -/
theorem parse_without_expected_keys :
    parse_json_like "\x7b\x7d" = .ok (.jobj []) ∧
    (parse_json_like twoKeyContent).toOption.bind (fun v => jGetStr v "T Staging") = none ∧
    (run_model_step (some twoKeyContent) "Adjuvant" [] none).1 = .noMatches :=
  ⟨rfl, rfl, rfl⟩

/-- C10: for every combination of questionnaire answers and document
inputs the assembled clinical text is non-empty after phase derivation —
one of the two fixed metastasis sentences is always appended — so the
branch of `main` that asks the user to provide patient data is
unreachable. -/
theorem assembled_text_nonempty (env secrets : Option String)
    (hi hb hs hm : String) (i b sg : DocInput) (pressed clientOk : Bool)
    (resp : Option String) (df : List TrialRow) (st0 : SessionResult) :
    pyStrip (assemble_and_phase hi hb hs hm i b sg).1 ≠ "" ∧
    (main_model env secrets hi hb hs hm i b sg pressed clientOk resp df st0).1 ≠
      .askData := by
  have hM : 'M' ∈ (assemble_and_phase hi hb hs hm i b sg).1.data := by
    unfold assemble_and_phase
    split
    · rw [String.data_append]
      exact List.mem_append_right _ (by decide)
    · split
      · rw [String.data_append]
        exact List.mem_append_right _ (by decide)
      · rw [String.data_append]
        exact List.mem_append_right _ (by decide)
  have h1 : pyStrip (assemble_and_phase hi hb hs hm i b sg).1 ≠ "" :=
    pyStrip_ne_empty hM (by decide)
  refine ⟨h1, ?_⟩
  unfold main_model
  by_cases hc : pyTruthyOpt (get_api_key env secrets) = false
  · rw [if_pos hc]
    simp
  · rw [if_neg hc, if_pos h1]
    by_cases hp : pressed
    · rw [if_pos hp]
      by_cases hk : clientOk = false
      · rw [if_pos hk]
        simp
      · rw [if_neg hk]
        simp
    · rw [if_neg hp]
      simp

end BaylorTrials
